import Mathlib

/-!
Shallow embedding of the reading-rewards backend core.

The embedding covers:
* the helper module (`computeCurrentLexileMeasure`, `computeMatchScore`);
* the quiz-submission route (`submitQuiz`) and the comprehension-update
  route (`setComprehensionForSubmission`) from `routes/quizzes.ts`.

Conventions of the embedding:
* JavaScript numbers are modelled as rationals (`ℚ`); timestamps
  (ISO strings compared/ordered via `moment`) are modelled as rationals
  measured in hours, so `moment(d).add(h, 'h')` becomes `d + h`.
* `lodash`'s `_.mean []` is `NaN` in the source (0/0); a non-numeric
  result is modelled as `none`, and `NaN` propagation through the
  subsequent arithmetic is modelled by `Option.map`.
* Answers are opaque payloads that the route only counts and forwards to
  the pluggable validator/grader, so an opaque carrier type suffices.
* The grader instance (`QuizGraderInstance`) and the repositories live in
  modules the route treats as injected collaborators; they appear here as
  fields of `SubmitEnv`, so every theorem quantifies over them.
-/

/-- Answers are opaque JSON payloads; the route only counts them and
passes them to the injected validator and grader. -/
abbrev AnswerPayload := String

inductive UserType where
  | student
  | educator
  | admin
deriving DecidableEq

structure IUser where
  _id : String
  type : UserType
deriving DecidableEq

/-- The authenticated principal (`req.authToken`). -/
structure AuthToken where
  _id : String
  type : UserType
deriving DecidableEq

structure IQuestion where
  type : String
  prompt : String
deriving DecidableEq

structure IQuiz where
  _id : String
  questions : List IQuestion
  book_id : Option String
  date_created : ℚ
deriving DecidableEq

structure IBook where
  _id : String
  genres : List String
  amazon_popularity : ℚ
deriving DecidableEq

structure IBookReview where
  book_lexile_measure : ℚ
  comprehension : ℚ
  date_submitted : ℚ
deriving DecidableEq

/-- A stored quiz submission, as returned by the submissions repository. -/
structure IQuizSubmission where
  _id : String
  quiz_id : String
  student_id : String
  book_id : String
  answers : List AnswerPayload
  date_created : ℚ
  score : ℚ
  passed : Bool
  comprehension : Option ℚ
deriving DecidableEq

/-- A freshly built submission (`_.assign({}, req.body, {...})` in
`submitQuiz`): the request body's fields plus the computed ones; the
repository assigns `_id` on persist and `comprehension` is absent. -/
structure INewQuizSubmission where
  quiz_id : String
  student_id : String
  book_id : String
  answers : List AnswerPayload
  date_created : ℚ
  score : ℚ
  passed : Bool
deriving DecidableEq

/-- Per-student genre interests; `none` models an absent key
(`genreId in genreInterests` is false). -/
def GenreInterestMap := String → Option ℚ

/-- `_.mean` from lodash: sum over length; the mean of `[]` is `NaN`
(modelled as `none`). -/
def lodashMean (l : List ℚ) : Option ℚ :=
  if l.isEmpty then none else some (l.sum / l.length)

/-- The adjusted signal computed for each recent review inside
`computeCurrentLexileMeasure`. -/
def adjustedLexileSignal (review : IBookReview) : ℚ :=
  review.book_lexile_measure + 50 * (review.comprehension - 4)

/-- `_.chain(bookReviews).orderBy('date_submitted', 'desc').slice(0, 3)`:
stable descending sort by `date_submitted`, then the first three. -/
def recentReviewsDesc (bookReviews : List IBookReview) : List IBookReview :=
  (bookReviews.mergeSort (fun a b => decide (b.date_submitted ≤ a.date_submitted))).take 3

/-- `computeCurrentLexileMeasure` from `helpers.ts`. -/
def computeCurrentLexileMeasure (initialLexileMeasure : ℚ)
    (bookReviews : List IBookReview) : ℚ :=
  if bookReviews.length < 3 then
    initialLexileMeasure
  else
    let recentReviews := recentReviewsDesc bookReviews
    (recentReviews.foldl (fun total review => total + adjustedLexileSignal review) 0) /
      recentReviews.length

/-- The per-genre lookup inside `computeMatchScore`: the student's
interest if the genre is a key of the map, else the default 3. -/
def userInterestInGenre (genreInterests : GenreInterestMap) (genreId : String) : ℚ :=
  match genreInterests genreId with
  | some interest => interest
  | none => 3

/-- `computeMatchScore` from `helpers.ts`.  The result is `none` exactly
when the book has no genres (the source produces `NaN` there). -/
def computeMatchScore (genreInterests : GenreInterestMap) (book : IBook) : Option ℚ :=
  let userInterestsInGenres := book.genres.map (userInterestInGenre genreInterests)
  (lodashMean userInterestsInGenres).map (fun interestFactor =>
    book.amazon_popularity * interestFactor / 20)

/-- The injected collaborators and configuration constants consumed by
the `submitQuiz` route: the repositories, the grader instance, the
current time, and the policy constants from `constants.ts`. -/
structure SubmitEnv where
  getUserById : String → Option IUser
  getSubmissionsForStudent : String → List IQuizSubmission
  getBook : String → Option IBook
  getQuizById : String → Option IQuiz
  isAnswerSchemaValid : String → AnswerPayload → Option String
  gradeQuiz : IQuiz → List AnswerPayload → ℚ
  now : ℚ
  passingQuizGrade : ℚ
  maxNumQuizAttempts : Nat
  minHoursBetweenBookQuizAttempt : ℚ

/-- The request body accepted by `submitQuiz` (`IQuizSubmissionBody`). -/
structure SubmitBody where
  quiz_id : String
  student_id : String
  book_id : String
  answers : List AnswerPayload
deriving DecidableEq

/-- The distinct failure reasons thrown along the `submitQuiz` route, in
source order; each constructor carries the data interpolated into the
corresponding error message. -/
inductive SubmitFailure where
  | crossStudentSubmission
  | userNotFound (student_id : String)
  | userNotStudent (student_id : String)
  | cooldown (mustWaitTill : ℚ)
  | alreadyPassed (book_id : String)
  | attemptsExhausted (book_id : String)
  | bookNotFound (book_id : String)
  | quizNotFound (quiz_id : String)
  | answerCountMismatch (numQuestions numAnswers : Nat)
  | invalidAnswer (prompt : String) (questionType : String) (err : String)
deriving DecidableEq

/-- The pre-handler identity middleware on `submitQuiz`: a student may
not submit for another student. -/
def checkIdentity (tok : AuthToken) (body : SubmitBody) : Option SubmitFailure :=
  if tok.type = UserType.student ∧ tok._id ≠ body.student_id then
    some SubmitFailure.crossStudentSubmission
  else
    none

/-- The `// verify user exists` block: the student must exist and have
the student role. -/
def checkUser (env : SubmitEnv) (body : SubmitBody) : Except SubmitFailure IUser :=
  match env.getUserById body.student_id with
  | none => Except.error (SubmitFailure.userNotFound body.student_id)
  | some user =>
    if user.type ≠ UserType.student then
      Except.error (SubmitFailure.userNotStudent body.student_id)
    else
      Except.ok user

/-- `_.orderBy(submissions, 'date_created', 'desc')[0]`: the first
element attaining the maximal `date_created` (lodash's sort is stable,
so ties keep the earlier element). -/
def mostRecentSubmission (s : IQuizSubmission) (ss : List IQuizSubmission) :
    IQuizSubmission :=
  ss.foldl (fun acc t => if acc.date_created < t.date_created then t else acc) s

/-- The `// check user did not recently submit a quiz.` block: if any
prior submission exists (for any book), the student must wait until
`MinHoursBetweenBookQuizAttempt` hours after the most recent one. -/
def checkCooldown (env : SubmitEnv) (submissions : List IQuizSubmission) :
    Option SubmitFailure :=
  match submissions with
  | [] => none
  | s :: ss =>
    let mustWaitTill :=
      (mostRecentSubmission s ss).date_created + env.minHoursBetweenBookQuizAttempt
    if env.now < mustWaitTill then some (SubmitFailure.cooldown mustWaitTill) else none

/-- The `// verification if there are previous submissions` block over
the submissions already filtered to this book: already-passed first,
then attempt exhaustion. -/
def checkBookHistory (maxNumQuizAttempts : Nat) (book_id : String)
    (prevSubmissions : List IQuizSubmission) : Option SubmitFailure :=
  match prevSubmissions with
  | [] => none
  | _ :: _ =>
    if (prevSubmissions.find? (fun s => s.passed)).isSome then
      some (SubmitFailure.alreadyPassed book_id)
    else if maxNumQuizAttempts ≤ prevSubmissions.length then
      some (SubmitFailure.attemptsExhausted book_id)
    else
      none

/-- The `// verify answer schema based on question types` loop: the
first invalid answer aborts with that question's prompt and type. -/
def validateAnswers (isAnswerSchemaValid : String → AnswerPayload → Option String) :
    List IQuestion → List AnswerPayload → Option SubmitFailure
  | [], _ => none
  | _ :: _, [] => none
  | q :: qs, a :: as =>
    match isAnswerSchemaValid q.type a with
    | some err => some (SubmitFailure.invalidAnswer q.prompt q.type err)
    | none => validateAnswers isAnswerSchemaValid qs as

/-- `quizData.getSubmissionsForStudent(req.body.student_id)`. -/
def studentSubmissions (env : SubmitEnv) (body : SubmitBody) : List IQuizSubmission :=
  env.getSubmissionsForStudent body.student_id

/-- `submissions.filter(s => s.book_id === req.body.book_id)`. -/
def prevSubmissionsForBook (env : SubmitEnv) (body : SubmitBody) : List IQuizSubmission :=
  (studentSubmissions env body).filter (fun s => s.book_id = body.book_id)

/-- The `submitQuiz` route handler: the identity middleware followed by
the handler's guards in source order, grading and constructing the new
submission only when every guard passes. -/
def submitQuiz (env : SubmitEnv) (tok : AuthToken) (body : SubmitBody) :
    Except SubmitFailure INewQuizSubmission :=
  match checkIdentity tok body with
  | some e => Except.error e
  | none =>
    match checkUser env body with
    | Except.error e => Except.error e
    | Except.ok _user =>
      match checkCooldown env (studentSubmissions env body) with
      | some e => Except.error e
      | none =>
        match checkBookHistory env.maxNumQuizAttempts body.book_id
            (prevSubmissionsForBook env body) with
        | some e => Except.error e
        | none =>
          match env.getBook body.book_id with
          | none => Except.error (SubmitFailure.bookNotFound body.book_id)
          | some _book =>
            match env.getQuizById body.quiz_id with
            | none => Except.error (SubmitFailure.quizNotFound body.quiz_id)
            | some quiz =>
              if quiz.questions.length ≠ body.answers.length then
                Except.error
                  (SubmitFailure.answerCountMismatch quiz.questions.length
                    body.answers.length)
              else
                match validateAnswers env.isAnswerSchemaValid quiz.questions
                    body.answers with
                | some e => Except.error e
                | none =>
                  Except.ok
                    { quiz_id := body.quiz_id
                      student_id := body.student_id
                      book_id := body.book_id
                      answers := body.answers
                      date_created := env.now
                      score := env.gradeQuiz quiz body.answers
                      passed :=
                        decide
                          (env.passingQuizGrade ≤ env.gradeQuiz quiz body.answers) }

/-- Failure reasons on the `setComprehensionForSubmission` route,
including the body-validation middleware's rejection of an out-of-range
comprehension value. -/
inductive ComprehensionFailure where
  | invalidComprehension
  | submissionNotFound (submission_id : String)
  | crossStudentUpdate
deriving DecidableEq

/-- The `setComprehensionForSubmission` route handler: the `valBody`
middleware (comprehension must be one of 1..5), the existence check, the
student-identity check, then `_.assign({}, submission, {comprehension})`. -/
def setComprehensionForSubmission (getSubmissionById : String → Option IQuizSubmission)
    (tok : AuthToken) (submissionId : String) (comprehension : ℚ) :
    Except ComprehensionFailure IQuizSubmission :=
  if ¬ (comprehension = 1 ∨ comprehension = 2 ∨ comprehension = 3 ∨
        comprehension = 4 ∨ comprehension = 5) then
    Except.error ComprehensionFailure.invalidComprehension
  else
    match getSubmissionById submissionId with
    | none => Except.error (ComprehensionFailure.submissionNotFound submissionId)
    | some submission =>
      if tok.type = UserType.student ∧ tok._id ≠ submission.student_id then
        Except.error ComprehensionFailure.crossStudentUpdate
      else
        Except.ok { submission with comprehension := some comprehension }

/-! ### Helper lemmas about the `submitQuiz` pipeline -/

theorem submitQuiz_identity_fail (env : SubmitEnv) (tok : AuthToken) (body : SubmitBody)
    (e : SubmitFailure) (hI : checkIdentity tok body = some e) :
    submitQuiz env tok body = Except.error e := by
  simp [submitQuiz, hI]

theorem submitQuiz_user_fail (env : SubmitEnv) (tok : AuthToken) (body : SubmitBody)
    (e : SubmitFailure) (hI : checkIdentity tok body = none)
    (hU : checkUser env body = Except.error e) :
    submitQuiz env tok body = Except.error e := by
  simp [submitQuiz, hI, hU]

theorem submitQuiz_cooldown_fail (env : SubmitEnv) (tok : AuthToken) (body : SubmitBody)
    (user : IUser) (e : SubmitFailure) (hI : checkIdentity tok body = none)
    (hU : checkUser env body = Except.ok user)
    (hC : checkCooldown env (studentSubmissions env body) = some e) :
    submitQuiz env tok body = Except.error e := by
  simp [submitQuiz, hI, hU, hC]

theorem submitQuiz_history_fail (env : SubmitEnv) (tok : AuthToken) (body : SubmitBody)
    (user : IUser) (e : SubmitFailure) (hI : checkIdentity tok body = none)
    (hU : checkUser env body = Except.ok user)
    (hC : checkCooldown env (studentSubmissions env body) = none)
    (hB : checkBookHistory env.maxNumQuizAttempts body.book_id
        (prevSubmissionsForBook env body) = some e) :
    submitQuiz env tok body = Except.error e := by
  simp [submitQuiz, hI, hU, hC, hB]

theorem submitQuiz_book_fail (env : SubmitEnv) (tok : AuthToken) (body : SubmitBody)
    (user : IUser) (hI : checkIdentity tok body = none)
    (hU : checkUser env body = Except.ok user)
    (hC : checkCooldown env (studentSubmissions env body) = none)
    (hB : checkBookHistory env.maxNumQuizAttempts body.book_id
        (prevSubmissionsForBook env body) = none)
    (hBook : env.getBook body.book_id = none) :
    submitQuiz env tok body = Except.error (SubmitFailure.bookNotFound body.book_id) := by
  simp [submitQuiz, hI, hU, hC, hB, hBook]

theorem submitQuiz_quiz_fail (env : SubmitEnv) (tok : AuthToken) (body : SubmitBody)
    (user : IUser) (book : IBook) (hI : checkIdentity tok body = none)
    (hU : checkUser env body = Except.ok user)
    (hC : checkCooldown env (studentSubmissions env body) = none)
    (hB : checkBookHistory env.maxNumQuizAttempts body.book_id
        (prevSubmissionsForBook env body) = none)
    (hBook : env.getBook body.book_id = some book)
    (hQuiz : env.getQuizById body.quiz_id = none) :
    submitQuiz env tok body = Except.error (SubmitFailure.quizNotFound body.quiz_id) := by
  simp [submitQuiz, hI, hU, hC, hB, hBook, hQuiz]

theorem submitQuiz_shape_fail (env : SubmitEnv) (tok : AuthToken) (body : SubmitBody)
    (user : IUser) (book : IBook) (quiz : IQuiz) (hI : checkIdentity tok body = none)
    (hU : checkUser env body = Except.ok user)
    (hC : checkCooldown env (studentSubmissions env body) = none)
    (hB : checkBookHistory env.maxNumQuizAttempts body.book_id
        (prevSubmissionsForBook env body) = none)
    (hBook : env.getBook body.book_id = some book)
    (hQuiz : env.getQuizById body.quiz_id = some quiz)
    (hLen : quiz.questions.length ≠ body.answers.length) :
    submitQuiz env tok body =
      Except.error
        (SubmitFailure.answerCountMismatch quiz.questions.length body.answers.length) := by
  simp [submitQuiz, hI, hU, hC, hB, hBook, hQuiz, hLen]

theorem submitQuiz_answer_fail (env : SubmitEnv) (tok : AuthToken) (body : SubmitBody)
    (user : IUser) (book : IBook) (quiz : IQuiz) (e : SubmitFailure)
    (hI : checkIdentity tok body = none)
    (hU : checkUser env body = Except.ok user)
    (hC : checkCooldown env (studentSubmissions env body) = none)
    (hB : checkBookHistory env.maxNumQuizAttempts body.book_id
        (prevSubmissionsForBook env body) = none)
    (hBook : env.getBook body.book_id = some book)
    (hQuiz : env.getQuizById body.quiz_id = some quiz)
    (hLen : quiz.questions.length = body.answers.length)
    (hV : validateAnswers env.isAnswerSchemaValid quiz.questions body.answers = some e) :
    submitQuiz env tok body = Except.error e := by
  simp [submitQuiz, hI, hU, hC, hB, hBook, hQuiz, hLen, hV]

theorem submitQuiz_all_pass (env : SubmitEnv) (tok : AuthToken) (body : SubmitBody)
    (user : IUser) (book : IBook) (quiz : IQuiz)
    (hI : checkIdentity tok body = none)
    (hU : checkUser env body = Except.ok user)
    (hC : checkCooldown env (studentSubmissions env body) = none)
    (hB : checkBookHistory env.maxNumQuizAttempts body.book_id
        (prevSubmissionsForBook env body) = none)
    (hBook : env.getBook body.book_id = some book)
    (hQuiz : env.getQuizById body.quiz_id = some quiz)
    (hLen : quiz.questions.length = body.answers.length)
    (hV : validateAnswers env.isAnswerSchemaValid quiz.questions body.answers = none) :
    submitQuiz env tok body =
      Except.ok
        { quiz_id := body.quiz_id
          student_id := body.student_id
          book_id := body.book_id
          answers := body.answers
          date_created := env.now
          score := env.gradeQuiz quiz body.answers
          passed := decide (env.passingQuizGrade ≤ env.gradeQuiz quiz body.answers) } := by
  simp [submitQuiz, hI, hU, hC, hB, hBook, hQuiz, hLen, hV]

theorem checkIdentity_shape (tok : AuthToken) (body : SubmitBody) (e : SubmitFailure)
    (h : checkIdentity tok body = some e) : e = SubmitFailure.crossStudentSubmission := by
  unfold checkIdentity at h
  split at h
  · exact (Option.some.inj h).symm
  · exact absurd h (by simp)

theorem checkUser_shape (env : SubmitEnv) (body : SubmitBody) (e : SubmitFailure)
    (h : checkUser env body = Except.error e) :
    e = SubmitFailure.userNotFound body.student_id ∨
      e = SubmitFailure.userNotStudent body.student_id := by
  unfold checkUser at h
  split at h
  · exact Or.inl (Except.error.inj h).symm
  · split at h
    · exact Or.inr (Except.error.inj h).symm
    · exact absurd h (by simp)

theorem checkCooldown_shape (env : SubmitEnv) (l : List IQuizSubmission) (e : SubmitFailure)
    (h : checkCooldown env l = some e) :
    ∃ s ss, l = s :: ss ∧
      e = SubmitFailure.cooldown
        ((mostRecentSubmission s ss).date_created + env.minHoursBetweenBookQuizAttempt) ∧
      env.now <
        (mostRecentSubmission s ss).date_created + env.minHoursBetweenBookQuizAttempt := by
  unfold checkCooldown at h
  match l with
  | [] => exact absurd h (by simp)
  | s :: ss =>
    refine ⟨s, ss, rfl, ?_⟩
    simp only at h
    split at h
    · exact ⟨(Option.some.inj h).symm, by assumption⟩
    · exact absurd h (by simp)

theorem checkBookHistory_shape (m : Nat) (bid : String) (l : List IQuizSubmission)
    (e : SubmitFailure) (h : checkBookHistory m bid l = some e) :
    e = SubmitFailure.alreadyPassed bid ∨ e = SubmitFailure.attemptsExhausted bid := by
  unfold checkBookHistory at h
  match l with
  | [] => exact absurd h (by simp)
  | _ :: _ =>
    simp only at h
    split at h
    · exact Or.inl (Option.some.inj h).symm
    · split at h
      · exact Or.inr (Option.some.inj h).symm
      · exact absurd h (by simp)

theorem validateAnswers_shape (val : String → AnswerPayload → Option String) :
    ∀ (qs : List IQuestion) (as : List AnswerPayload) (e : SubmitFailure),
      validateAnswers val qs as = some e →
      ∃ p t err, e = SubmitFailure.invalidAnswer p t err
  | [], as, e, h => absurd h (by simp [validateAnswers])
  | _ :: _, [], e, h => absurd h (by simp [validateAnswers])
  | q :: qs, a :: as, e, h => by
    unfold validateAnswers at h
    split at h
    · exact ⟨q.prompt, q.type, _, (Option.some.inj h).symm⟩
    · exact validateAnswers_shape val qs as e h

theorem submitQuiz_ok_inv (env : SubmitEnv) (tok : AuthToken) (body : SubmitBody)
    (sub : INewQuizSubmission) (h : submitQuiz env tok body = Except.ok sub) :
    checkIdentity tok body = none ∧
    (∃ user, checkUser env body = Except.ok user) ∧
    checkCooldown env (studentSubmissions env body) = none ∧
    checkBookHistory env.maxNumQuizAttempts body.book_id
      (prevSubmissionsForBook env body) = none ∧
    (∃ book, env.getBook body.book_id = some book) ∧
    ∃ quiz, env.getQuizById body.quiz_id = some quiz ∧
      quiz.questions.length = body.answers.length ∧
      validateAnswers env.isAnswerSchemaValid quiz.questions body.answers = none ∧
      sub =
        { quiz_id := body.quiz_id
          student_id := body.student_id
          book_id := body.book_id
          answers := body.answers
          date_created := env.now
          score := env.gradeQuiz quiz body.answers
          passed := decide (env.passingQuizGrade ≤ env.gradeQuiz quiz body.answers) } := by
  unfold submitQuiz at h
  split at h
  · exact absurd h (by simp)
  next hI =>
    split at h
    · exact absurd h (by simp)
    next user hU =>
      split at h
      · exact absurd h (by simp)
      next hC =>
        split at h
        · exact absurd h (by simp)
        next hB =>
          split at h
          · exact absurd h (by simp)
          next book hBook =>
            split at h
            · exact absurd h (by simp)
            next quiz hQuiz =>
              split at h
              · exact absurd h (by simp)
              next hLen =>
                split at h
                · exact absurd h (by simp)
                next hV =>
                  exact ⟨hI, ⟨user, hU⟩, hC, hB, ⟨book, hBook⟩, quiz, hQuiz,
                    not_not.mp hLen, hV, (Except.ok.inj h).symm⟩

theorem submitQuiz_cooldown_inv (env : SubmitEnv) (tok : AuthToken) (body : SubmitBody)
    (t : ℚ) (h : submitQuiz env tok body = Except.error (SubmitFailure.cooldown t)) :
    checkCooldown env (studentSubmissions env body) = some (SubmitFailure.cooldown t) := by
  unfold submitQuiz at h
  split at h
  next e hI =>
    have := checkIdentity_shape tok body e hI
    subst this
    exact absurd (Except.error.inj h) (by simp)
  next hI =>
    split at h
    next e hU =>
      rcases checkUser_shape env body e hU with he | he <;>
        · subst he; exact absurd (Except.error.inj h) (by simp)
    next user hU =>
      split at h
      next e hC =>
        have := Except.error.inj h
        subst this
        exact hC
      next hC =>
        split at h
        next e hB =>
          rcases checkBookHistory_shape _ _ _ e hB with he | he <;>
            · subst he; exact absurd (Except.error.inj h) (by simp)
        next hB =>
          split at h
          next hBook => exact absurd (Except.error.inj h) (by simp)
          next book hBook =>
            split at h
            next hQuiz => exact absurd (Except.error.inj h) (by simp)
            next quiz hQuiz =>
              split at h
              next hLen => exact absurd (Except.error.inj h) (by simp)
              next hLen =>
                split at h
                next e hV =>
                  obtain ⟨p, ty, err, he⟩ :=
                    validateAnswers_shape env.isAnswerSchemaValid _ _ e hV
                  subst he
                  exact absurd (Except.error.inj h) (by simp)
                next hV => exact absurd h (by simp)

theorem le_mostRecentSubmission (s : IQuizSubmission) (ss : List IQuizSubmission) :
    ∀ x ∈ s :: ss, x.date_created ≤ (mostRecentSubmission s ss).date_created := by
  induction ss generalizing s with
  | nil =>
    intro x hx
    rcases List.mem_cons.mp hx with rfl | hx
    · exact le_refl _
    · exact absurd hx (List.not_mem_nil x)
  | cons t ts ih =>
    intro x hx
    have hstep : mostRecentSubmission s (t :: ts) =
        mostRecentSubmission (if s.date_created < t.date_created then t else s) ts := by
      unfold mostRecentSubmission
      simp [List.foldl_cons]
    have hs : s.date_created ≤
        (if s.date_created < t.date_created then t else s).date_created := by
      split <;> [exact le_of_lt (by assumption); exact le_refl _]
    have ht : t.date_created ≤
        (if s.date_created < t.date_created then t else s).date_created := by
      split <;> [exact le_refl _; exact le_of_not_lt (by assumption)]
    have hhead := ih (if s.date_created < t.date_created then t else s)
      (if s.date_created < t.date_created then t else s) (List.mem_cons_self _ _)
    rcases List.mem_cons.mp hx with rfl | hx
    · exact hstep ▸ (hs.trans hhead)
    rcases List.mem_cons.mp hx with rfl | hx
    · exact hstep ▸ (ht.trans hhead)
    · exact hstep ▸ ih _ x (List.mem_cons_of_mem _ hx)

/-! ### Lexile calibrator lemmas -/

theorem foldl_add_map (f : IBookReview → ℚ) (l : List IBookReview) :
    ∀ init : ℚ, l.foldl (fun total r => total + f r) init = init + (l.map f).sum := by
  induction l with
  | nil => intro init; simp
  | cons r rs ih =>
    intro init
    rw [List.foldl_cons, ih, List.map_cons, List.sum_cons]
    ring

theorem computeCurrentLexileMeasure_lt3 (m : ℚ) (reviews : List IBookReview)
    (h : reviews.length < 3) : computeCurrentLexileMeasure m reviews = m := by
  simp [computeCurrentLexileMeasure, h]

theorem computeCurrentLexileMeasure_ge3 (m : ℚ) (reviews : List IBookReview)
    (h3 : 3 ≤ reviews.length) :
    computeCurrentLexileMeasure m reviews =
      ((recentReviewsDesc reviews).map adjustedLexileSignal).sum / 3 := by
  have hnot : ¬ reviews.length < 3 := not_lt.mpr h3
  have hlen : (recentReviewsDesc reviews).length = 3 := by
    unfold recentReviewsDesc
    rw [List.length_take, List.length_mergeSort]
    omega
  simp only [computeCurrentLexileMeasure, if_neg hnot]
  rw [foldl_add_map, hlen, zero_add]
  norm_num

theorem recentReviewsDesc_pairwise (reviews : List IBookReview) :
    (recentReviewsDesc reviews).Pairwise
      (fun a b => b.date_submitted ≤ a.date_submitted) := by
  have hs : (reviews.mergeSort
      (fun a b => decide (b.date_submitted ≤ a.date_submitted))).Pairwise
      (fun a b => decide (b.date_submitted ≤ a.date_submitted) = true) :=
    List.sorted_mergeSort
      (fun a b c hab hbc => by
        simp only [decide_eq_true_eq] at *
        exact le_trans hbc hab)
      (fun a b => by
        simp only [Bool.or_eq_true, decide_eq_true_eq]
        exact le_total _ _)
      reviews
  have hs' : (reviews.mergeSort
      (fun a b => decide (b.date_submitted ≤ a.date_submitted))).Pairwise
      (fun a b => b.date_submitted ≤ a.date_submitted) :=
    hs.imp (fun hab => of_decide_eq_true hab)
  exact List.Pairwise.sublist (List.take_sublist 3 _) hs'

theorem recentReviewsDesc_of_length_eq_three (reviews : List IBookReview)
    (h : reviews.length = 3) : List.Perm (recentReviewsDesc reviews) reviews := by
  unfold recentReviewsDesc
  rw [List.take_of_length_le (by rw [List.length_mergeSort]; omega)]
  exact List.mergeSort_perm reviews _

/-- C5: `computeCurrentLexileMeasure` returns the initial measure when
fewer than 3 reviews exist; otherwise it returns the arithmetic mean of
the adjusted signal `book_lexile_measure + 50 * (comprehension - 4)`
over the 3 most recent reviews by `date_submitted` (taken in descending
order); in particular with exactly 3 reviews all rated comprehension 4
it returns the mean of their `book_lexile_measure` values. -/
theorem computeCurrentLexileMeasure_spec :
    (∀ (m : ℚ) (reviews : List IBookReview), reviews.length < 3 →
        computeCurrentLexileMeasure m reviews = m)
    ∧ (∀ (m : ℚ) (reviews : List IBookReview), 3 ≤ reviews.length →
        computeCurrentLexileMeasure m reviews =
          ((recentReviewsDesc reviews).map adjustedLexileSignal).sum / 3)
    ∧ (∀ reviews : List IBookReview,
        (recentReviewsDesc reviews).Pairwise
          (fun a b => b.date_submitted ≤ a.date_submitted))
    ∧ (∀ (m : ℚ) (reviews : List IBookReview), reviews.length = 3 →
        (∀ r ∈ reviews, r.comprehension = 4) →
        computeCurrentLexileMeasure m reviews =
          (reviews.map IBookReview.book_lexile_measure).sum / 3) := by
  refine ⟨computeCurrentLexileMeasure_lt3, computeCurrentLexileMeasure_ge3,
    recentReviewsDesc_pairwise, ?_⟩
  intro m reviews hlen hc
  rw [computeCurrentLexileMeasure_ge3 m reviews (le_of_eq hlen.symm)]
  have hperm := recentReviewsDesc_of_length_eq_three reviews hlen
  have h1 : ((recentReviewsDesc reviews).map adjustedLexileSignal).sum =
      (reviews.map adjustedLexileSignal).sum :=
    (hperm.map adjustedLexileSignal).sum_eq
  rw [h1]
  have h2 : reviews.map adjustedLexileSignal =
      reviews.map IBookReview.book_lexile_measure := by
    apply List.map_congr_left
    intro r hr
    unfold adjustedLexileSignal
    rw [hc r hr]
    ring
  rw [h2]

/-- Witness for C5 at concrete inputs: two reviews leave the initial
measure unchanged, and three comprehension-4 reviews yield the plain
mean of their measures. -/
theorem computeCurrentLexileMeasure_spec_witness :
    computeCurrentLexileMeasure 500 [⟨600, 5, 1⟩, ⟨650, 3, 2⟩] = 500 ∧
    computeCurrentLexileMeasure 500
      [⟨600, 4, 10⟩, ⟨700, 4, 20⟩, ⟨800, 4, 30⟩] = 700 := by
  constructor
  · exact computeCurrentLexileMeasure_spec.1 500 [⟨600, 5, 1⟩, ⟨650, 3, 2⟩] (by decide)
  · have h := computeCurrentLexileMeasure_spec.2.2.2 500
      [⟨600, 4, 10⟩, ⟨700, 4, 20⟩, ⟨800, 4, 30⟩] (by decide) (by decide)
    rw [h]
    norm_num

/-! ### Match scorer lemmas -/

theorem computeMatchScore_eq (genreInterests : GenreInterestMap) (book : IBook)
    (hne : book.genres ≠ []) :
    computeMatchScore genreInterests book =
      some (book.amazon_popularity *
        ((book.genres.map (userInterestInGenre genreInterests)).sum /
          (book.genres.length : ℚ)) / 20) := by
  have hne' : book.genres.map (userInterestInGenre genreInterests) ≠ [] := by
    simpa using hne
  simp only [computeMatchScore, lodashMean, List.isEmpty_iff, if_neg hne',
    Option.map_some', List.length_map]

theorem interest_bounds (genreInterests : GenreInterestMap) (book : IBook)
    (hint : ∀ g ∈ book.genres, ∀ v, genreInterests g = some v → 1 ≤ v ∧ v ≤ 4) :
    ∀ x ∈ book.genres.map (userInterestInGenre genreInterests), 1 ≤ x ∧ x ≤ 4 := by
  intro x hx
  obtain ⟨g, hg, rfl⟩ := List.mem_map.mp hx
  unfold userInterestInGenre
  cases hgi : genreInterests g with
  | some v => exact hint g hg v hgi
  | none => norm_num

/-- C6: with a non-empty genre set, popularity in [0,5] and mapped
interests in [1,4], `computeMatchScore` equals the popularity times the
mean of the per-genre interests (absent genres defaulting to 3) divided
by 20, and the result lies in [0, 1]. -/
theorem computeMatchScore_spec (genreInterests : GenreInterestMap) (book : IBook)
    (hne : book.genres ≠ [])
    (hpop0 : 0 ≤ book.amazon_popularity) (hpop5 : book.amazon_popularity ≤ 5)
    (hint : ∀ g ∈ book.genres, ∀ v, genreInterests g = some v → 1 ≤ v ∧ v ≤ 4) :
    computeMatchScore genreInterests book =
      some (book.amazon_popularity *
        ((book.genres.map (userInterestInGenre genreInterests)).sum /
          (book.genres.length : ℚ)) / 20) ∧
    ∀ q, computeMatchScore genreInterests book = some q → 0 ≤ q ∧ q ≤ 1 := by
  have heq := computeMatchScore_eq genreInterests book hne
  refine ⟨heq, ?_⟩
  intro q hq
  rw [heq] at hq
  have hq' := Option.some.inj hq
  subst hq'
  have hmem := interest_bounds genreInterests book hint
  set l := book.genres.map (userInterestInGenre genreInterests) with hl
  have hlen : l.length = book.genres.length := by rw [hl, List.length_map]
  have hlenpos : 0 < (book.genres.length : ℚ) := by
    have h0 : 0 < book.genres.length := List.length_pos.mpr hne
    exact_mod_cast h0
  have hsum_le : l.sum ≤ (l.length : ℚ) * 4 := by
    have := List.sum_le_card_nsmul l 4 (fun x hx => (hmem x hx).2)
    rwa [nsmul_eq_mul] at this
  have hsum_ge : (l.length : ℚ) * 1 ≤ l.sum := by
    have := List.card_nsmul_le_sum l 1 (fun x hx => (hmem x hx).1)
    rwa [nsmul_eq_mul] at this
  rw [hlen] at hsum_le hsum_ge
  have hf1 : 1 ≤ l.sum / (book.genres.length : ℚ) := by
    rw [le_div_iff₀ hlenpos]
    linarith
  have hf4 : l.sum / (book.genres.length : ℚ) ≤ 4 := by
    rw [div_le_iff₀ hlenpos]
    linarith
  constructor
  · apply div_nonneg _ (by norm_num : (0:ℚ) ≤ 20)
    exact mul_nonneg hpop0 (by linarith)
  · rw [div_le_one (by norm_num : (0:ℚ) < 20)]
    have : book.amazon_popularity * (l.sum / (book.genres.length : ℚ)) ≤ 5 * 4 :=
      mul_le_mul hpop5 hf4 (by linarith) (by norm_num)
    linarith

/-- Witness for C6 at a concrete input: a two-genre book with popularity
5 and no mapped interests (both genres default to 3) scores
5 * 3 / 20 = 3/4, inside [0,1]. -/
theorem computeMatchScore_spec_witness :
    computeMatchScore (fun _ => none) ⟨"b6", ["g1", "g2"], 5⟩ = some (3/4) ∧
      (0:ℚ) ≤ 3/4 ∧ (3/4:ℚ) ≤ 1 := by
  have h := computeMatchScore_spec (fun _ => none) ⟨"b6", ["g1", "g2"], 5⟩
    (by decide) (by norm_num) (by norm_num)
    (by intro g hg v hv; exact Option.noConfusion hv)
  have h1 : computeMatchScore (fun _ => none) ⟨"b6", ["g1", "g2"], 5⟩ = some (3/4) := by
    norm_num [computeMatchScore, lodashMean, userInterestInGenre]
  have h2 := h.2 (3/4) h1
  exact ⟨h1, h2.1, h2.2⟩

theorem interests_nonneg (genreInterests : GenreInterestMap)
    (hnn : ∀ g, 0 ≤ userInterestInGenre genreInterests g) (genres : List String) :
    0 ≤ (genres.map (userInterestInGenre genreInterests)).sum := by
  have := List.card_nsmul_le_sum (genres.map (userInterestInGenre genreInterests)) (0:ℚ)
    (fun x hx => by
      obtain ⟨g, _, rfl⟩ := List.mem_map.mp hx
      exact hnn g)
  simpa using this

/-- C8: `computeMatchScore` is monotonically non-decreasing in
`amazon_popularity` (fixed genres and interests, interests non-negative)
and in the per-genre interests (pointwise, fixed non-negative
popularity); and a book with a single genre at interest 4 and
popularity 5 scores exactly 1. -/
theorem computeMatchScore_monotone :
    (∀ (genreInterests : GenreInterestMap) (i₁ i₂ : String) (genres : List String)
        (p₁ p₂ : ℚ), p₁ ≤ p₂ →
        (∀ g, 0 ≤ userInterestInGenre genreInterests g) →
        ∀ q₁ q₂, computeMatchScore genreInterests ⟨i₁, genres, p₁⟩ = some q₁ →
          computeMatchScore genreInterests ⟨i₂, genres, p₂⟩ = some q₂ → q₁ ≤ q₂)
    ∧ (∀ (gi₁ gi₂ : GenreInterestMap) (book : IBook),
        (∀ g, userInterestInGenre gi₁ g ≤ userInterestInGenre gi₂ g) →
        0 ≤ book.amazon_popularity →
        ∀ q₁ q₂, computeMatchScore gi₁ book = some q₁ →
          computeMatchScore gi₂ book = some q₂ → q₁ ≤ q₂)
    ∧ (∀ (genreInterests : GenreInterestMap) (i g : String),
        genreInterests g = some 4 →
        computeMatchScore genreInterests ⟨i, [g], 5⟩ = some 1) := by
  refine ⟨?_, ?_, ?_⟩
  · intro gi i₁ i₂ genres p₁ p₂ hp hnn q₁ q₂ hq₁ hq₂
    by_cases hl : genres = []
    · subst hl
      simp [computeMatchScore, lodashMean] at hq₁
    · have h₁ := computeMatchScore_eq gi ⟨i₁, genres, p₁⟩ hl
      have h₂ := computeMatchScore_eq gi ⟨i₂, genres, p₂⟩ hl
      rw [h₁] at hq₁
      rw [h₂] at hq₂
      obtain rfl := Option.some.inj hq₁
      obtain rfl := Option.some.inj hq₂
      have hsum : (0:ℚ) ≤ (genres.map (userInterestInGenre gi)).sum :=
        interests_nonneg gi hnn genres
      have hlen : (0:ℚ) ≤ (genres.length : ℚ) := by positivity
      have hf : (0:ℚ) ≤ (genres.map (userInterestInGenre gi)).sum / (genres.length : ℚ) :=
        div_nonneg hsum hlen
      have := mul_le_mul_of_nonneg_right hp hf
      simp only
      linarith
  · intro gi₁ gi₂ book hmono hpop q₁ q₂ hq₁ hq₂
    by_cases hl : book.genres = []
    · rw [computeMatchScore, hl] at hq₁
      simp [lodashMean] at hq₁
    · have h₁ := computeMatchScore_eq gi₁ book hl
      have h₂ := computeMatchScore_eq gi₂ book hl
      rw [h₁] at hq₁
      rw [h₂] at hq₂
      obtain rfl := Option.some.inj hq₁
      obtain rfl := Option.some.inj hq₂
      have hlenpos : (0:ℚ) < (book.genres.length : ℚ) := by
        have h0 : 0 < book.genres.length := List.length_pos.mpr hl
        exact_mod_cast h0
      have hsum : (book.genres.map (userInterestInGenre gi₁)).sum ≤
          (book.genres.map (userInterestInGenre gi₂)).sum :=
        List.sum_le_sum (fun g _ => hmono g)
      have hf : (book.genres.map (userInterestInGenre gi₁)).sum / (book.genres.length : ℚ) ≤
          (book.genres.map (userInterestInGenre gi₂)).sum / (book.genres.length : ℚ) := by
        apply div_le_div_of_nonneg_right hsum (le_of_lt hlenpos)
      have := mul_le_mul_of_nonneg_left hf hpop
      linarith
  · intro gi i g hgi
    norm_num [computeMatchScore, lodashMean, userInterestInGenre, hgi]

/-- Witness for C8: a single-genre book at interest level 4 with
popularity 5 scores exactly 1. -/
theorem computeMatchScore_monotone_witness :
    computeMatchScore (fun _ => some 4) ⟨"b8", ["g8"], 5⟩ = some 1 :=
  computeMatchScore_monotone.2.2 (fun _ => some 4) "b8" "g8" rfl

/-- C10: for a book with zero genres `computeMatchScore` is the lodash
mean of an empty list scaled and so produces no number at all (`NaN` in
the source, `none` here); consequently the [0,1]-bound postcondition can
only hold for books with at least one genre. -/
theorem computeMatchScore_empty_genres :
    (∀ (genreInterests : GenreInterestMap) (i : String) (p : ℚ),
        computeMatchScore genreInterests ⟨i, [], p⟩ = none)
    ∧ (∀ (genreInterests : GenreInterestMap) (book : IBook) (q : ℚ),
        computeMatchScore genreInterests book = some q → book.genres ≠ []) := by
  constructor
  · intro gi i p
    simp [computeMatchScore, lodashMean]
  · intro gi book q hq hne
    rw [computeMatchScore, hne] at hq
    simp [lodashMean] at hq

/-- Witness for C10: a zero-genre book scores `none`, and a book that
scores `some` value has a non-empty genre list. -/
theorem computeMatchScore_empty_genres_witness :
    computeMatchScore (fun _ => none) ⟨"b10", [], 3⟩ = none ∧
      (["g10"] : List String) ≠ [] := by
  constructor
  · exact computeMatchScore_empty_genres.1 (fun _ => none) "b10" 3
  · exact computeMatchScore_empty_genres.2 (fun _ => some 2) ⟨"b10", ["g10"], 1⟩
      (1 / 10) (by norm_num [computeMatchScore, lodashMean, userInterestInGenre])

/-! ### Submission route claims -/

/-- C7: every successful `submitQuiz` builds the new submission with
`date_created = now`, `score` equal to the grader's output on the
fetched quiz and the submitted answers, and `passed` holding exactly
when `score` reaches the passing grade; moreover success implies every
eligibility check (identity, user, cooldown, book history, book and quiz
existence, answer count, per-answer schema) passed. -/
theorem submitQuiz_success_spec (env : SubmitEnv) (tok : AuthToken) (body : SubmitBody)
    (sub : INewQuizSubmission) (h : submitQuiz env tok body = Except.ok sub) :
    sub.date_created = env.now ∧
    (∃ quiz, env.getQuizById body.quiz_id = some quiz ∧
      sub.score = env.gradeQuiz quiz body.answers ∧
      quiz.questions.length = body.answers.length ∧
      validateAnswers env.isAnswerSchemaValid quiz.questions body.answers = none) ∧
    (sub.passed = true ↔ env.passingQuizGrade ≤ sub.score) ∧
    checkIdentity tok body = none ∧
    (∃ user, checkUser env body = Except.ok user) ∧
    checkCooldown env (studentSubmissions env body) = none ∧
    checkBookHistory env.maxNumQuizAttempts body.book_id
      (prevSubmissionsForBook env body) = none ∧
    (∃ book, env.getBook body.book_id = some book) := by
  obtain ⟨hI, hU, hC, hB, hBook, quiz, hQuiz, hLen, hV, rfl⟩ :=
    submitQuiz_ok_inv env tok body sub h
  refine ⟨rfl, ⟨quiz, hQuiz, rfl, hLen, hV⟩, ?_, hI, hU, hC, hB, hBook⟩
  simp

def tokC7 : AuthToken := ⟨"s7", UserType.student⟩

def bodyC7 : SubmitBody := ⟨"q7", "s7", "b7", ["a"]⟩

def quizC7 : IQuiz := ⟨"q7", [⟨"mc", "p"⟩], some "b7", 0⟩

def envC7 : SubmitEnv :=
  { getUserById := fun _ => some ⟨"s7", UserType.student⟩
    getSubmissionsForStudent := fun _ => []
    getBook := fun _ => some ⟨"b7", ["g"], 4⟩
    getQuizById := fun _ => some quizC7
    isAnswerSchemaValid := fun _ _ => none
    gradeQuiz := fun _ _ => 100
    now := 50
    passingQuizGrade := 70
    maxNumQuizAttempts := 3
    minHoursBetweenBookQuizAttempt := 12 }

def subC7 : INewQuizSubmission := ⟨"q7", "s7", "b7", ["a"], 50, 100, true⟩

theorem submitQuiz_ok_envC7 : submitQuiz envC7 tokC7 bodyC7 = Except.ok subC7 := by
  have h := submitQuiz_all_pass envC7 tokC7 bodyC7 ⟨"s7", UserType.student⟩
    ⟨"b7", ["g"], 4⟩ quizC7 (by decide) (by rfl) (by decide) (by decide)
    (by rfl) (by rfl) (by decide) (by decide)
  rw [h]
  rfl

/-- Witness for C7 at a concrete all-checks-pass input. -/
theorem submitQuiz_success_spec_witness :
    subC7.date_created = envC7.now ∧ (subC7.passed = true ↔
      envC7.passingQuizGrade ≤ subC7.score) := by
  have h := submitQuiz_success_spec envC7 tokC7 bodyC7 subC7 submitQuiz_ok_envC7
  exact ⟨h.1, h.2.2.1⟩

def envC1x : SubmitEnv :=
  { getUserById := fun _ => some ⟨"s1", UserType.student⟩
    getSubmissionsForStudent := fun _ =>
      [⟨"sub1", "q0", "s1", "b0", [], 0, 10, false, none⟩]
    getBook := fun _ => none
    getQuizById := fun _ => none
    isAnswerSchemaValid := fun _ _ => none
    gradeQuiz := fun _ _ => 0
    now := 1
    passingQuizGrade := 70
    maxNumQuizAttempts := 3
    minHoursBetweenBookQuizAttempt := 24 }

/-- C1 counterexample: both the book and the quiz reference dangle, yet
with an active cooldown `submitQuiz` reports the cooldown failure — so
dangling book/quiz references are not rejected before the cooldown
check is consulted. -/
theorem submitQuiz_check_order_counterexample :
    envC1x.getBook "b1" = none ∧ envC1x.getQuizById "q1" = none ∧
    submitQuiz envC1x ⟨"s1", UserType.student⟩ ⟨"q1", "s1", "b1", []⟩ =
      Except.error (SubmitFailure.cooldown 24) := by
  refine ⟨rfl, rfl, ?_⟩
  have hC : checkCooldown envC1x
      (studentSubmissions envC1x ⟨"q1", "s1", "b1", []⟩) =
      some (SubmitFailure.cooldown 24) := by
    norm_num [checkCooldown, studentSubmissions, mostRecentSubmission, envC1x]
  exact submitQuiz_cooldown_fail envC1x ⟨"s1", UserType.student⟩ ⟨"q1", "s1", "b1", []⟩
    ⟨"s1", UserType.student⟩ (SubmitFailure.cooldown 24) (by decide) (by rfl) hC

/-- C1 (amended): the checks of `submitQuiz` run in the source order —
identity, student existence and role, platform-wide cooldown,
already-passed and attempt-exhaustion over this book's history, book
existence, quiz existence, answer count, per-answer schema — each
short-circuiting with its own failure reason, and the grader runs (and
the submission is built) only after all of them pass.  In particular a
dangling book or quiz reference is rejected only after the cooldown,
already-passed, and attempt-exhaustion checks have all passed. -/
theorem submitQuiz_check_order (env : SubmitEnv) (tok : AuthToken) (body : SubmitBody) :
    (∀ e, checkIdentity tok body = some e →
      submitQuiz env tok body = Except.error e)
    ∧ (∀ e, checkIdentity tok body = none →
      checkUser env body = Except.error e →
      submitQuiz env tok body = Except.error e)
    ∧ (∀ user e, checkIdentity tok body = none →
      checkUser env body = Except.ok user →
      checkCooldown env (studentSubmissions env body) = some e →
      submitQuiz env tok body = Except.error e)
    ∧ (∀ user e, checkIdentity tok body = none →
      checkUser env body = Except.ok user →
      checkCooldown env (studentSubmissions env body) = none →
      checkBookHistory env.maxNumQuizAttempts body.book_id
        (prevSubmissionsForBook env body) = some e →
      submitQuiz env tok body = Except.error e)
    ∧ (∀ user, checkIdentity tok body = none →
      checkUser env body = Except.ok user →
      checkCooldown env (studentSubmissions env body) = none →
      checkBookHistory env.maxNumQuizAttempts body.book_id
        (prevSubmissionsForBook env body) = none →
      env.getBook body.book_id = none →
      submitQuiz env tok body = Except.error (SubmitFailure.bookNotFound body.book_id))
    ∧ (∀ user book, checkIdentity tok body = none →
      checkUser env body = Except.ok user →
      checkCooldown env (studentSubmissions env body) = none →
      checkBookHistory env.maxNumQuizAttempts body.book_id
        (prevSubmissionsForBook env body) = none →
      env.getBook body.book_id = some book →
      env.getQuizById body.quiz_id = none →
      submitQuiz env tok body = Except.error (SubmitFailure.quizNotFound body.quiz_id))
    ∧ (∀ user book quiz, checkIdentity tok body = none →
      checkUser env body = Except.ok user →
      checkCooldown env (studentSubmissions env body) = none →
      checkBookHistory env.maxNumQuizAttempts body.book_id
        (prevSubmissionsForBook env body) = none →
      env.getBook body.book_id = some book →
      env.getQuizById body.quiz_id = some quiz →
      quiz.questions.length ≠ body.answers.length →
      submitQuiz env tok body =
        Except.error (SubmitFailure.answerCountMismatch quiz.questions.length
          body.answers.length))
    ∧ (∀ user book quiz e, checkIdentity tok body = none →
      checkUser env body = Except.ok user →
      checkCooldown env (studentSubmissions env body) = none →
      checkBookHistory env.maxNumQuizAttempts body.book_id
        (prevSubmissionsForBook env body) = none →
      env.getBook body.book_id = some book →
      env.getQuizById body.quiz_id = some quiz →
      quiz.questions.length = body.answers.length →
      validateAnswers env.isAnswerSchemaValid quiz.questions body.answers = some e →
      submitQuiz env tok body = Except.error e)
    ∧ (∀ user book quiz, checkIdentity tok body = none →
      checkUser env body = Except.ok user →
      checkCooldown env (studentSubmissions env body) = none →
      checkBookHistory env.maxNumQuizAttempts body.book_id
        (prevSubmissionsForBook env body) = none →
      env.getBook body.book_id = some book →
      env.getQuizById body.quiz_id = some quiz →
      quiz.questions.length = body.answers.length →
      validateAnswers env.isAnswerSchemaValid quiz.questions body.answers = none →
      submitQuiz env tok body =
        Except.ok
          { quiz_id := body.quiz_id
            student_id := body.student_id
            book_id := body.book_id
            answers := body.answers
            date_created := env.now
            score := env.gradeQuiz quiz body.answers
            passed := decide (env.passingQuizGrade ≤ env.gradeQuiz quiz body.answers) }) :=
  ⟨fun e hI => submitQuiz_identity_fail env tok body e hI,
   fun e hI hU => submitQuiz_user_fail env tok body e hI hU,
   fun user e hI hU hC => submitQuiz_cooldown_fail env tok body user e hI hU hC,
   fun user e hI hU hC hB => submitQuiz_history_fail env tok body user e hI hU hC hB,
   fun user hI hU hC hB hBook =>
     submitQuiz_book_fail env tok body user hI hU hC hB hBook,
   fun user book hI hU hC hB hBook hQuiz =>
     submitQuiz_quiz_fail env tok body user book hI hU hC hB hBook hQuiz,
   fun user book quiz hI hU hC hB hBook hQuiz hLen =>
     submitQuiz_shape_fail env tok body user book quiz hI hU hC hB hBook hQuiz hLen,
   fun user book quiz e hI hU hC hB hBook hQuiz hLen hV =>
     submitQuiz_answer_fail env tok body user book quiz e hI hU hC hB hBook hQuiz hLen hV,
   fun user book quiz hI hU hC hB hBook hQuiz hLen hV =>
     submitQuiz_all_pass env tok body user book quiz hI hU hC hB hBook hQuiz hLen hV⟩

def tokC1 : AuthToken := ⟨"s2", UserType.admin⟩

def bodyC1 : SubmitBody := ⟨"q2", "s2", "b2", []⟩

def quizC1 : IQuiz := ⟨"q2", [], none, 0⟩

def envC1 : SubmitEnv :=
  { getUserById := fun _ => some ⟨"s2", UserType.student⟩
    getSubmissionsForStudent := fun _ => []
    getBook := fun _ => some ⟨"b2", [], 2⟩
    getQuizById := fun _ => some quizC1
    isAnswerSchemaValid := fun _ _ => some "bad"
    gradeQuiz := fun _ _ => 40
    now := 9
    passingQuizGrade := 70
    maxNumQuizAttempts := 3
    minHoursBetweenBookQuizAttempt := 6 }

/-- Witness for C1 at a concrete input where every check passes: the
final conjunct of the order theorem produces the graded submission. -/
theorem submitQuiz_check_order_witness :
    submitQuiz envC1 tokC1 bodyC1 =
      Except.ok
        { quiz_id := bodyC1.quiz_id
          student_id := bodyC1.student_id
          book_id := bodyC1.book_id
          answers := bodyC1.answers
          date_created := envC1.now
          score := envC1.gradeQuiz quizC1 bodyC1.answers
          passed := decide (envC1.passingQuizGrade ≤ envC1.gradeQuiz quizC1 bodyC1.answers) } :=
  (submitQuiz_check_order envC1 tokC1 bodyC1).2.2.2.2.2.2.2.2
    ⟨"s2", UserType.student⟩ ⟨"b2", [], 2⟩ quizC1 (by decide) (by rfl) (by decide)
    (by decide) (by rfl) (by rfl) (by decide) (by decide)

def envC2x : SubmitEnv :=
  { getUserById := fun _ => some ⟨"s1", UserType.student⟩
    getSubmissionsForStudent := fun _ =>
      [⟨"sub1", "q1", "s1", "b1", [], 0, 90, true, none⟩]
    getBook := fun _ => some ⟨"b1", [], 1⟩
    getQuizById := fun _ => some ⟨"q1", [], none, 0⟩
    isAnswerSchemaValid := fun _ _ => none
    gradeQuiz := fun _ _ => 0
    now := 1
    passingQuizGrade := 70
    maxNumQuizAttempts := 3
    minHoursBetweenBookQuizAttempt := 24 }

/-- C2 counterexample: the student has a prior passed submission for
book `b1`, but because the platform-wide cooldown is still active the
attempt is rejected with the cooldown reason, not already-passed — the
already-passed reason is not returned while the cooldown window is
active. -/
theorem alreadyPassed_claim_counterexample :
    (∃ s ∈ (envC2x.getSubmissionsForStudent "s1").filter
        (fun s => s.book_id = "b1"), s.passed = true) ∧
    submitQuiz envC2x ⟨"s1", UserType.student⟩ ⟨"q1", "s1", "b1", []⟩ =
      Except.error (SubmitFailure.cooldown 24) := by
  constructor
  · exact ⟨⟨"sub1", "q1", "s1", "b1", [], 0, 90, true, none⟩, by decide, rfl⟩
  · have hC : checkCooldown envC2x
        (studentSubmissions envC2x ⟨"q1", "s1", "b1", []⟩) =
        some (SubmitFailure.cooldown 24) := by
      norm_num [checkCooldown, studentSubmissions, mostRecentSubmission, envC2x]
    exact submitQuiz_cooldown_fail envC2x ⟨"s1", UserType.student⟩
      ⟨"q1", "s1", "b1", []⟩ ⟨"s1", UserType.student⟩ (SubmitFailure.cooldown 24)
      (by decide) (by rfl) hC

/-- C2 (amended): once the identity, user and platform-wide cooldown
checks pass, a student with any prior passed submission for this book is
rejected with the already-passed reason, regardless of how many attempts
were made; while the cooldown window is still active the rejection is
the cooldown reason instead. -/
theorem alreadyPassed_spec (env : SubmitEnv) (tok : AuthToken) (body : SubmitBody)
    (user : IUser)
    (hI : checkIdentity tok body = none)
    (hU : checkUser env body = Except.ok user)
    (hC : checkCooldown env (studentSubmissions env body) = none)
    (hP : ∃ s ∈ prevSubmissionsForBook env body, s.passed = true) :
    submitQuiz env tok body =
      Except.error (SubmitFailure.alreadyPassed body.book_id) := by
  apply submitQuiz_history_fail env tok body user _ hI hU hC
  obtain ⟨s, hs, hpass⟩ := hP
  cases hpb : prevSubmissionsForBook env body with
  | nil => rw [hpb] at hs; exact absurd hs (List.not_mem_nil s)
  | cons x xs =>
    rw [hpb] at hs
    have hfind : ((x :: xs).find? (fun s => s.passed)).isSome :=
      List.find?_isSome.mpr ⟨s, hs, hpass⟩
    simp only [checkBookHistory, if_pos hfind]

def envC2 : SubmitEnv :=
  { getUserById := fun _ => some ⟨"s1", UserType.student⟩
    getSubmissionsForStudent := fun _ =>
      [⟨"sa", "q1", "s1", "b1", [], 0, 10, false, none⟩,
       ⟨"sb", "q1", "s1", "b1", [], 1, 20, false, none⟩,
       ⟨"sc", "q1", "s1", "b1", [], 2, 95, true, none⟩,
       ⟨"sd", "q1", "s1", "b1", [], 3, 30, false, none⟩,
       ⟨"se", "q1", "s1", "b1", [], 4, 40, false, none⟩]
    getBook := fun _ => some ⟨"b1", [], 1⟩
    getQuizById := fun _ => some ⟨"q1", [], none, 0⟩
    isAnswerSchemaValid := fun _ _ => none
    gradeQuiz := fun _ _ => 0
    now := 100
    passingQuizGrade := 70
    maxNumQuizAttempts := 3
    minHoursBetweenBookQuizAttempt := 24 }

/-- Witness for C2 (amended): with the cooldown expired, five prior
attempts for the book (more than `maxNumQuizAttempts`) and one of them
passed, the rejection is already-passed. -/
theorem alreadyPassed_spec_witness :
    submitQuiz envC2 ⟨"s1", UserType.student⟩ ⟨"q1", "s1", "b1", []⟩ =
      Except.error (SubmitFailure.alreadyPassed "b1") := by
  have hC : checkCooldown envC2
      (studentSubmissions envC2 ⟨"q1", "s1", "b1", []⟩) = none := by
    norm_num [checkCooldown, studentSubmissions, mostRecentSubmission, envC2,
      List.foldl_cons, List.foldl_nil]
  exact alreadyPassed_spec envC2 ⟨"s1", UserType.student⟩ ⟨"q1", "s1", "b1", []⟩
    ⟨"s1", UserType.student⟩ (by decide) (by rfl) hC
    ⟨⟨"sc", "q1", "s1", "b1", [], 2, 95, true, none⟩, by decide, rfl⟩

/-- C4: the cooldown check is platform-wide: with any prior submission
(for any book), letting `mustWaitTill` be the `date_created` of the most
recent submission plus `minHoursBetweenBookQuizAttempt`, an attempt
strictly before `mustWaitTill` is rejected with that timestamp in the
failure, the cooldown failure is impossible once the current time is not
before `mustWaitTill`, and the most recent submission is maximal by
`date_created` over the whole (unfiltered, cross-book) history. -/
theorem cooldown_spec :
    (∀ (env : SubmitEnv) (tok : AuthToken) (body : SubmitBody) (user : IUser)
        (s : IQuizSubmission) (ss : List IQuizSubmission),
        checkIdentity tok body = none →
        checkUser env body = Except.ok user →
        studentSubmissions env body = s :: ss →
        env.now < (mostRecentSubmission s ss).date_created +
          env.minHoursBetweenBookQuizAttempt →
        submitQuiz env tok body =
          Except.error (SubmitFailure.cooldown
            ((mostRecentSubmission s ss).date_created +
              env.minHoursBetweenBookQuizAttempt)))
    ∧ (∀ (env : SubmitEnv) (tok : AuthToken) (body : SubmitBody)
        (s : IQuizSubmission) (ss : List IQuizSubmission),
        studentSubmissions env body = s :: ss →
        ¬ env.now < (mostRecentSubmission s ss).date_created +
          env.minHoursBetweenBookQuizAttempt →
        ∀ t, submitQuiz env tok body ≠ Except.error (SubmitFailure.cooldown t))
    ∧ (∀ (s : IQuizSubmission) (ss : List IQuizSubmission),
        ∀ x ∈ s :: ss, x.date_created ≤ (mostRecentSubmission s ss).date_created) := by
  refine ⟨?_, ?_, le_mostRecentSubmission⟩
  · intro env tok body user s ss hI hU hsubs hlt
    apply submitQuiz_cooldown_fail env tok body user _ hI hU
    rw [hsubs]
    simp only [checkCooldown, if_pos hlt]
  · intro env tok body s ss hsubs hnot t hcon
    have h := submitQuiz_cooldown_inv env tok body t hcon
    rw [hsubs] at h
    simp only [checkCooldown, if_neg hnot] at h
    exact Option.noConfusion h

def envC4 : SubmitEnv :=
  { getUserById := fun _ => some ⟨"s4", UserType.student⟩
    getSubmissionsForStudent := fun _ =>
      [⟨"sub4", "q0", "s4", "b0", [], 10, 50, false, none⟩]
    getBook := fun _ => some ⟨"b4", [], 1⟩
    getQuizById := fun _ => some ⟨"q4", [], none, 0⟩
    isAnswerSchemaValid := fun _ _ => none
    gradeQuiz := fun _ _ => 0
    now := 20
    passingQuizGrade := 70
    maxNumQuizAttempts := 3
    minHoursBetweenBookQuizAttempt := 24 }

/-- Witness for C4: the single prior submission is for another book
(`b0`), yet an attempt for `b4` inside the window is rejected with the
computed `mustWaitTill`. -/
theorem cooldown_spec_witness :
    submitQuiz envC4 ⟨"s4", UserType.student⟩ ⟨"q4", "s4", "b4", []⟩ =
      Except.error (SubmitFailure.cooldown
        ((mostRecentSubmission
            ⟨"sub4", "q0", "s4", "b0", [], 10, 50, false, none⟩ []).date_created +
          envC4.minHoursBetweenBookQuizAttempt)) :=
  cooldown_spec.1 envC4 ⟨"s4", UserType.student⟩ ⟨"q4", "s4", "b4", []⟩
    ⟨"s4", UserType.student⟩ ⟨"sub4", "q0", "s4", "b0", [], 10, 50, false, none⟩ []
    (by decide) (by rfl) (by rfl) (by norm_num [mostRecentSubmission, envC4])

/-! ### Comprehension update claims -/

def subC3 : IQuizSubmission :=
  ⟨"sub1", "q1", "s1", "b1", [], 0, 90, true, none⟩

/-- C3 counterexample: an admin principal whose identity differs from
the submission's `student_id` is allowed to set the comprehension — the
operation does not reject every principal other than the submitting
student. -/
theorem setComprehension_admin_counterexample :
    (⟨"a1", UserType.admin⟩ : AuthToken)._id ≠ subC3.student_id ∧
    setComprehensionForSubmission (fun _ => some subC3)
      ⟨"a1", UserType.admin⟩ "sub1" 3 =
      Except.ok { subC3 with comprehension := some 3 } := by
  refine ⟨by decide, ?_⟩
  rfl

/-- C3 (amended): the comprehension of a submission can be updated by
the submitting student and by any non-student principal; the update is
rejected with the cross-student reason exactly when a student principal
targets another student's submission. -/
theorem setComprehension_student_guard :
    (∀ (repo : String → Option IQuizSubmission) (tok : AuthToken) (sid : String)
        (c : ℚ) (sub : IQuizSubmission),
        repo sid = some sub →
        (c = 1 ∨ c = 2 ∨ c = 3 ∨ c = 4 ∨ c = 5) →
        tok.type = UserType.student → tok._id ≠ sub.student_id →
        setComprehensionForSubmission repo tok sid c =
          Except.error ComprehensionFailure.crossStudentUpdate)
    ∧ (∀ (repo : String → Option IQuizSubmission) (tok : AuthToken) (sid : String)
        (c : ℚ) (sub : IQuizSubmission),
        repo sid = some sub →
        (c = 1 ∨ c = 2 ∨ c = 3 ∨ c = 4 ∨ c = 5) →
        (tok.type ≠ UserType.student ∨ tok._id = sub.student_id) →
        setComprehensionForSubmission repo tok sid c =
          Except.ok { sub with comprehension := some c }) := by
  constructor
  · intro repo tok sid c sub hrepo hc htype hid
    unfold setComprehensionForSubmission
    rw [if_neg (not_not_intro hc), hrepo]
    simp only
    rw [if_pos ⟨htype, hid⟩]
  · intro repo tok sid c sub hrepo hc hok
    unfold setComprehensionForSubmission
    rw [if_neg (not_not_intro hc), hrepo]
    simp only
    rw [if_neg]
    rintro ⟨htype, hid⟩
    rcases hok with h | h
    · exact h htype
    · exact hid h

/-- Witness for C3 (amended): a student principal targeting another
student's submission is rejected, while the submitting student's own
update succeeds. -/
theorem setComprehension_student_guard_witness :
    setComprehensionForSubmission (fun _ => some subC3)
      ⟨"s2", UserType.student⟩ "sub1" 2 =
      Except.error ComprehensionFailure.crossStudentUpdate ∧
    setComprehensionForSubmission (fun _ => some subC3)
      ⟨"s1", UserType.student⟩ "sub1" 2 =
      Except.ok { subC3 with comprehension := some 2 } := by
  constructor
  · exact setComprehension_student_guard.1 (fun _ => some subC3)
      ⟨"s2", UserType.student⟩ "sub1" 2 subC3 rfl (by norm_num) rfl (by decide)
  · exact setComprehension_student_guard.2 (fun _ => some subC3)
      ⟨"s1", UserType.student⟩ "sub1" 2 subC3 rfl (by norm_num) (Or.inr rfl)

/-- C9: the comprehension update is frame-preserving — on success every
field of the stored submission other than `comprehension` is written
back unchanged, and `comprehension` becomes the submitted rating. -/
theorem setComprehension_frame (repo : String → Option IQuizSubmission)
    (tok : AuthToken) (sid : String) (c : ℚ) (sub out : IQuizSubmission)
    (hrepo : repo sid = some sub)
    (hok : setComprehensionForSubmission repo tok sid c = Except.ok out) :
    out._id = sub._id ∧ out.quiz_id = sub.quiz_id ∧
    out.student_id = sub.student_id ∧ out.book_id = sub.book_id ∧
    out.answers = sub.answers ∧ out.date_created = sub.date_created ∧
    out.score = sub.score ∧ out.passed = sub.passed ∧
    out.comprehension = some c := by
  unfold setComprehensionForSubmission at hok
  split at hok
  · exact absurd hok (by simp)
  next hc =>
    split at hok
    next hnone => rw [hrepo] at hnone; exact absurd hnone (by simp)
    next submission hsome =>
      rw [hrepo] at hsome
      obtain rfl := Option.some.inj hsome
      split at hok
      · exact absurd hok (by simp)
      · obtain rfl := Except.ok.inj hok
        exact ⟨rfl, rfl, rfl, rfl, rfl, rfl, rfl, rfl, rfl⟩

def subC9 : IQuizSubmission :=
  ⟨"sub9", "q9", "s9", "b9", ["x"], 5, 80, false, none⟩

/-- Witness for C9 at a concrete input. -/
theorem setComprehension_frame_witness :
    ({subC9 with comprehension := some 4} : IQuizSubmission)._id = subC9._id ∧
    ({subC9 with comprehension := some 4} : IQuizSubmission).quiz_id = subC9.quiz_id ∧
    ({subC9 with comprehension := some 4} : IQuizSubmission).student_id = subC9.student_id ∧
    ({subC9 with comprehension := some 4} : IQuizSubmission).book_id = subC9.book_id ∧
    ({subC9 with comprehension := some 4} : IQuizSubmission).answers = subC9.answers ∧
    ({subC9 with comprehension := some 4} : IQuizSubmission).date_created = subC9.date_created ∧
    ({subC9 with comprehension := some 4} : IQuizSubmission).score = subC9.score ∧
    ({subC9 with comprehension := some 4} : IQuizSubmission).passed = subC9.passed ∧
    ({subC9 with comprehension := some 4} : IQuizSubmission).comprehension = some 4 :=
  setComprehension_frame (fun _ => some subC9) ⟨"s9", UserType.student⟩ "sub9" 4
    subC9 { subC9 with comprehension := some 4 } rfl (by rfl)
